import Mathlib

/-! Verification of the AlignedLayer verifier-operator core (operator.go).

Shallow embedding: Go byte slices are lists of naturals (a nil slice is the
empty list); external effects — the DA-backend fetches, the gnark PLONK
library, the SP1 FFI verifier, ABI encoding, Keccak-256 and BLS signing —
are supplied as an explicit environment of pure functions, so every
definition is executable.  A Go nil-pointer dereference, which panics and
kills the process, is modelled by the StartOutcome.crash outcome. -/

namespace AlignedOperator

/-- Tags of the common.DASolution enumeration, as matched by the DA switch in
ProcessNewTaskCreatedLog.  The common package only needs the three tags to be
distinct; values outside this set fall through the switch. -/
def Calldata : Nat := 0

/-- DA solution tag for EigenDA. -/
def EigenDA : Nat := 1

/-- DA solution tag for Celestia. -/
def Celestia : Nat := 2

/-- Proving-system tag common.GnarkPlonkBls12_381 (a uint16 in the source). -/
def GnarkPlonkBls12_381 : Nat := 0

/-- Proving-system tag common.GnarkPlonkBn254. -/
def GnarkPlonkBn254 : Nat := 1

/-- Proving-system tag common.SP1. -/
def SP1 : Nat := 2

/-- DAPayload: solution tag, proof-associated data and index, as carried by a
ProofVerificationsData entry of the on-chain task. -/
structure DAPayload where
  solution : Nat
  proofAssociatedData : List Nat
  index : Nat
  deriving DecidableEq

/-- One entry of task.ProofVerificationsData. -/
structure ProofVerificationData where
  provingSystemId : Nat
  daPayload : DAPayload
  pubInput : List Nat
  verificationKey : List Nat
  deriving DecidableEq

/-- BatchProofVerificationTask from the NewTaskCreated event. -/
structure BatchProofVerificationTask where
  taskCreatedBlock : Nat
  proofVerificationsData : List ProofVerificationData
  deriving DecidableEq

/-- The decoded NewTaskCreated log. -/
structure NewTaskCreatedLog where
  taskIndex : Nat
  batchProofVerificationTask : BatchProofVerificationTask
  deriving DecidableEq

/-- AlignedLayerServiceManagerBatchProofVerificationTaskResponse. -/
structure TaskResponse where
  taskIndex : Nat
  proofResults : List Bool
  deriving DecidableEq

/-- The operator's BLS keypair (opaque to the core; only identity matters). -/
structure KeyPair where
  privKey : Nat
  deriving DecidableEq

/-- A BLS signature, as bytes. -/
structure Signature where
  bytes : List Nat
  deriving DecidableEq

/-- types.SignedTaskResponse, handed to the aggregator RPC client. -/
structure SignedTaskResponse where
  taskResponse : TaskResponse
  blsSignature : Signature
  operatorId : Nat
  deriving DecidableEq

/-- The gnark curve identifiers used by the two PLONK wrappers. -/
inductive CurveId where
  | bls12_381
  | bn254
  deriving DecidableEq

/-- Environment of external, effectful or library-supplied operations, modelled
as pure functions: the two DA fetchers (methods of Operator whose bodies live
outside this file's source), the gnark deserializers and verifier keyed by
curve and input bytes (deserialization of a byte string is deterministic, so
success is a function of the bytes), the SP1 size bounds and verifier oracle,
and the configured Celestia namespace. -/
structure Env where
  getProofFromEigenDA : List Nat → Nat → Except String (List Nat)
  getProofFromCelestia : Nat → Nat → List Nat → Except String (List Nat)
  celestiaNamespace : Nat
  proofRead : CurveId → List Nat → Bool
  witnessNew : CurveId → Bool
  witnessRead : CurveId → List Nat → Bool
  vkRead : CurveId → List Nat → Bool
  plonkVerify : CurveId → List Nat → List Nat → List Nat → Bool
  maxProofSize : Nat
  maxElfBufferSize : Nat
  sp1Verify : List Nat → Nat → List Nat → Nat → Bool

/-- Go's make-then-copy idiom: a zeroed buffer of length n whose first
min(n, length xs) bytes are copied from xs (copy truncates silently). -/
def padTrunc (n : Nat) (xs : List Nat) : List Nat :=
  xs.take n ++ List.replicate (n - xs.length) 0

/-- Modelled from the spec: sp1.VerifySp1Proof, the operator/sp1 FFI wrapper,
is not part of this file's source (only its call site is).  Per the spec,
inputs whose true length exceeds the fixed buffer size are treated as
verification failures and return false without crashing; in-bound inputs are
handed to the SP1 zkVM verifier, abstracted as the env.sp1Verify oracle. -/
def VerifySp1Proof (env : Env) (proofBuffer : List Nat) (proofLen : Nat)
    (elfBuffer : List Nat) (elfLen : Nat) : Bool :=
  if env.maxProofSize < proofLen ∨ env.maxElfBufferSize < elfLen then false
  else env.sp1Verify proofBuffer proofLen elfBuffer elfLen

/-- verifyPlonkProof: deserialize the proof, instantiate and read the public
witness over the curve's scalar field, read the verifying key — each early
return on failure yields false — then return whether plonk.Verify succeeds. -/
def verifyPlonkProof (env : Env)
    (proofBytes pubInputBytes verificationKeyBytes : List Nat)
    (curve : CurveId) : Bool :=
  if env.proofRead curve proofBytes then
    if env.witnessNew curve then
      if env.witnessRead curve pubInputBytes then
        if env.vkRead curve verificationKeyBytes then
          env.plonkVerify curve proofBytes pubInputBytes verificationKeyBytes
        else false
      else false
    else false
  else false

/-- The successive stages of verifyPlonkProof, for stating their order. -/
inductive PlonkStep where
  | readProof
  | newWitness
  | readWitness
  | readVk
  | runVerify
  deriving DecidableEq

/-- The stages verifyPlonkProof actually attempts, in the order the source
attempts them: each stage is reached only if every earlier stage succeeded. -/
def verifyPlonkProofSteps (env : Env)
    (proofBytes pubInputBytes verificationKeyBytes : List Nat)
    (curve : CurveId) : List PlonkStep :=
  PlonkStep.readProof ::
    (if env.proofRead curve proofBytes then
      PlonkStep.newWitness ::
        (if env.witnessNew curve then
          PlonkStep.readWitness ::
            (if env.witnessRead curve pubInputBytes then
              PlonkStep.readVk ::
                (if env.vkRead curve verificationKeyBytes then
                  [PlonkStep.runVerify]
                else [])
            else [])
        else [])
    else [])

/-- The full stage order of the PLONK verifier contract. -/
def plonkStepOrder : List PlonkStep :=
  [PlonkStep.readProof, PlonkStep.newWitness, PlonkStep.readWitness,
   PlonkStep.readVk, PlonkStep.runVerify]

/-- verifyPlonkProofBLS12_381 verifies a BLS12-381 PLONK proof. -/
def verifyPlonkProofBLS12_381 (env : Env)
    (proofBytes pubInputBytes verificationKeyBytes : List Nat) : Bool :=
  verifyPlonkProof env proofBytes pubInputBytes verificationKeyBytes
    CurveId.bls12_381

/-- verifyPlonkProofBN254 verifies a BN254 PLONK proof. -/
def verifyPlonkProofBN254 (env : Env)
    (proofBytes pubInputBytes verificationKeyBytes : List Nat) : Bool :=
  verifyPlonkProof env proofBytes pubInputBytes verificationKeyBytes
    CurveId.bn254

/-- The DA switch at the top of the per-proof loop: Calldata takes the payload
bytes verbatim, EigenDA and Celestia call their fetchers and abandon the task
on error, and any other tag leaves the proof variable nil (the switch has no
default case). -/
def fetchProof (env : Env) (verificationData : ProofVerificationData) :
    Except String (List Nat) :=
  if verificationData.daPayload.solution = Calldata then
    Except.ok verificationData.daPayload.proofAssociatedData
  else if verificationData.daPayload.solution = EigenDA then
    env.getProofFromEigenDA verificationData.daPayload.proofAssociatedData
      verificationData.daPayload.index
  else if verificationData.daPayload.solution = Celestia then
    env.getProofFromCelestia verificationData.daPayload.index
      env.celestiaNamespace verificationData.daPayload.proofAssociatedData
  else
    Except.ok []

/-- The provingSystemId switch of the per-proof loop: dispatch to the verifier
for the tag, or abandon the task (none) on an unrecognized proving system.
The SP1 case copies proof and ELF into fixed-size zeroed buffers but passes
the true lengths alongside. -/
def verifyStep (env : Env) (verificationData : ProofVerificationData)
    (proof : List Nat) : Option Bool :=
  if verificationData.provingSystemId = GnarkPlonkBls12_381 then
    some (verifyPlonkProofBLS12_381 env proof verificationData.pubInput
      verificationData.verificationKey)
  else if verificationData.provingSystemId = GnarkPlonkBn254 then
    some (verifyPlonkProofBN254 env proof verificationData.pubInput
      verificationData.verificationKey)
  else if verificationData.provingSystemId = SP1 then
    some (VerifySp1Proof env (padTrunc env.maxProofSize proof) proof.length
      (padTrunc env.maxElfBufferSize verificationData.pubInput)
      verificationData.pubInput.length)
  else
    none

/-- One iteration of the per-proof loop: resolve the proof bytes, abandoning
the task on fetch error, then dispatch on the proving system. -/
def processElement (env : Env) (verificationData : ProofVerificationData) :
    Option Bool :=
  match fetchProof env verificationData with
  | Except.error _ => none
  | Except.ok proof => verifyStep env verificationData proof

/-- The whole per-proof loop: fill the result vector in order, abandoning the
task (none) as soon as an iteration abandons it. -/
def processProofs (env : Env) :
    List ProofVerificationData → Option (List Bool)
  | [] => some []
  | verificationData :: rest =>
    match processElement env verificationData with
    | none => none
    | some b =>
      match processProofs env rest with
      | none => none
      | some bs => some (b :: bs)

/-- ProcessNewTaskCreatedLog: verify every proof of the batch in order and
assemble the TaskResponse echoing the task index, or return nil (none). -/
def ProcessNewTaskCreatedLog (env : Env) (newTaskCreatedLog : NewTaskCreatedLog) :
    Option TaskResponse :=
  match processProofs env
      newTaskCreatedLog.batchProofVerificationTask.proofVerificationsData with
  | none => none
  | some proofVerificationResults =>
    some { taskIndex := newTaskCreatedLog.taskIndex
           proofResults := proofVerificationResults }

/-- The provingSystemId tags the dispatch switch recognizes. -/
def knownProvingSystem (provingSystemId : Nat) : Prop :=
  provingSystemId = GnarkPlonkBls12_381 ∨
  provingSystemId = GnarkPlonkBn254 ∨
  provingSystemId = SP1

instance (provingSystemId : Nat) :
    Decidable (knownProvingSystem provingSystemId) := by
  unfold knownProvingSystem
  infer_instance

/-- Environment of the signing pipeline: utils.AbiEncodeTaskResponse (repo
code outside this file's source, abstracted as a fallible pure function per
the spec's canonical-encoding contract), the Keccak-256 hash, the BLS
SignMessage primitive, and the operator's keypair and id. -/
structure SignEnv where
  abiEncode : TaskResponse → Except String (List Nat)
  keccak256 : List Nat → List Nat
  signMessage : KeyPair → List Nat → Signature
  keyPair : KeyPair
  operatorId : Nat

/-- The 32-byte digest actually signed: the hash output copied into a zeroed
32-byte array. -/
def taskResponseDigest (signEnv : SignEnv) (encodedResponseBytes : List Nat) :
    List Nat :=
  padTrunc 32 (signEnv.keccak256 encodedResponseBytes)

/-- SignTaskResponse: ABI-encode the response (propagating the error), hash
with legacy Keccak-256 into a 32-byte digest, and BLS-sign the digest. -/
def SignTaskResponse (signEnv : SignEnv) (taskResponse : TaskResponse) :
    Except String Signature :=
  match signEnv.abiEncode taskResponse with
  | Except.error e => Except.error e
  | Except.ok encodedResponseBytes =>
    Except.ok (signEnv.signMessage signEnv.keyPair
      (taskResponseDigest signEnv encodedResponseBytes))

/-- Outcome of Start's handling of one NewTaskCreated event: either a
SignedTaskResponse is handed to the aggregator client, or the goroutine
dereferences a nil pointer and the process panics. -/
inductive StartOutcome where
  | crash
  | submitted (signedTaskResponse : SignedTaskResponse)
  deriving DecidableEq

/-- The body of the newTaskCreatedLog arm of Start's select, as the source
executes it.  ProcessNewTaskCreatedLog may return nil, but Start passes the
pointer straight to SignTaskResponse, which dereferences it for ABI encoding:
a nil task response panics there.  When SignTaskResponse returns an error the
source only logs it and still builds the SignedTaskResponse from the nil
signature pointer: that dereference also panics.  Only when both steps
succeed is a SignedTaskResponse sent to the aggregator. -/
def startHandleNewTask (env : Env) (signEnv : SignEnv)
    (newTaskCreatedLog : NewTaskCreatedLog) : StartOutcome :=
  match ProcessNewTaskCreatedLog env newTaskCreatedLog with
  | none => StartOutcome.crash
  | some taskResponse =>
    match SignTaskResponse signEnv taskResponse with
    | Except.error _ => StartOutcome.crash
    | Except.ok responseSignature =>
      StartOutcome.submitted
        { taskResponse := taskResponse
          blsSignature := responseSignature
          operatorId := signEnv.operatorId }

/-- A Go context, reduced to the one observable the loop could consult:
whether it has been cancelled (its Done channel is closed). -/
structure Context where
  cancelled : Bool
  deriving DecidableEq

/-- Whether a context's Done channel is ready to receive. -/
def Context.doneReady (ctx : Context) : Bool := ctx.cancelled

/-- context.Background(): a fresh root context, never cancelled. -/
def contextBackground : Context := { cancelled := false }

/-- Whether the shutdown arm of Start's select can fire, as a function of the
caller-supplied context: the source waits on context.Background().Done(),
ignoring the ctx parameter entirely. -/
def startShutdownReady (ctx : Context) : Bool :=
  contextBackground.doneReady

/-- A make-then-copy buffer always has the requested length. -/
theorem padTrunc_length (n : Nat) (xs : List Nat) : (padTrunc n xs).length = n := by
  simp [padTrunc]
  omega

/-- The result vector of the per-proof loop has one entry per input proof. -/
theorem processProofs_length (env : Env) :
    ∀ (l : List ProofVerificationData) (rs : List Bool),
      processProofs env l = some rs → rs.length = l.length := by
  intro l
  induction l with
  | nil =>
    intro rs h
    simp only [processProofs, Option.some.injEq] at h
    simp [← h]
  | cons verificationData rest ih =>
    intro rs h
    simp only [processProofs] at h
    cases hpe : processElement env verificationData with
    | none => rw [hpe] at h; exact absurd h (by simp)
    | some b =>
      rw [hpe] at h
      cases hrest : processProofs env rest with
      | none => rw [hrest] at h; exact absurd h (by simp)
      | some bs =>
        rw [hrest] at h
        simp only [Option.some.injEq] at h
        subst h
        simp [ih bs hrest]

/-- The entry at index i of the result vector is the verdict computed for the
i-th input proof. -/
theorem processProofs_get (env : Env) :
    ∀ (l : List ProofVerificationData) (rs : List Bool),
      processProofs env l = some rs →
      ∀ (i : Nat) (verificationData : ProofVerificationData),
        l[i]? = some verificationData →
        rs[i]? = processElement env verificationData := by
  intro l
  induction l with
  | nil =>
    intro rs _ i verificationData hget
    simp at hget
  | cons headData rest ih =>
    intro rs h i verificationData hget
    simp only [processProofs] at h
    cases hpe : processElement env headData with
    | none => rw [hpe] at h; exact absurd h (by simp)
    | some b =>
      rw [hpe] at h
      cases hrest : processProofs env rest with
      | none => rw [hrest] at h; exact absurd h (by simp)
      | some bs =>
        rw [hrest] at h
        simp only [Option.some.injEq] at h
        subst h
        cases i with
        | zero =>
          simp only [List.getElem?_cons_zero, Option.some.injEq] at hget
          subst hget
          simp [hpe]
        | succ j =>
          simp only [List.getElem?_cons_succ] at hget ⊢
          exact ih bs hrest j verificationData hget

/-- The per-proof loop abandons the batch exactly when some iteration does. -/
theorem processProofs_eq_none (env : Env) :
    ∀ (l : List ProofVerificationData),
      processProofs env l = none ↔
        ∃ verificationData ∈ l, processElement env verificationData = none := by
  intro l
  induction l with
  | nil => simp [processProofs]
  | cons headData rest ih =>
    simp only [processProofs]
    cases hpe : processElement env headData with
    | none =>
      simp only [List.mem_cons]
      constructor
      · intro _
        exact ⟨headData, Or.inl rfl, hpe⟩
      · intro _
        trivial
    | some b =>
      cases hrest : processProofs env rest with
      | none =>
        simp only [List.mem_cons]
        constructor
        · intro _
          obtain ⟨vd, hmem, hnone⟩ := ih.mp hrest
          exact ⟨vd, Or.inr hmem, hnone⟩
        · intro _
          trivial
      | some bs =>
        simp only [List.mem_cons]
        constructor
        · intro h
          exact absurd h (by simp)
        · rintro ⟨vd, hmem, hnone⟩
          rcases hmem with hmem | hmem
          · subst hmem
            rw [hpe] at hnone
            exact absurd hnone (by simp)
          · have : processProofs env rest = none := ih.mpr ⟨vd, hmem, hnone⟩
            rw [hrest] at this
            exact absurd this (by simp)

/-- A recognized proving system always yields a verdict: the dispatch never
abandons the task for any proof bytes, a failed verification included. -/
theorem verifyStep_known_isSome (env : Env)
    (verificationData : ProofVerificationData) (proof : List Nat)
    (hknown : knownProvingSystem verificationData.provingSystemId) :
    ∃ b, verifyStep env verificationData proof = some b := by
  rcases hknown with h | h | h <;>
    simp [verifyStep, h, GnarkPlonkBls12_381, GnarkPlonkBn254, SP1]

/-- An unrecognized proving system abandons the task at its dispatch. -/
theorem verifyStep_unknown_eq_none (env : Env)
    (verificationData : ProofVerificationData) (proof : List Nat)
    (hunknown : ¬ knownProvingSystem verificationData.provingSystemId) :
    verifyStep env verificationData proof = none := by
  unfold knownProvingSystem at hunknown
  push_neg at hunknown
  obtain ⟨h1, h2, h3⟩ := hunknown
  simp [verifyStep, h1, h2, h3]

/-- A concrete environment for evaluating the development on closed inputs:
EigenDA is unreachable, Celestia answers, gnark deserialization succeeds on
nonempty byte strings, PLONK verification accepts exactly the proof bytes
[1], and the SP1 buffers hold four bytes. -/
def envW : Env where
  getProofFromEigenDA := fun _ _ => Except.error "eigen unreachable"
  getProofFromCelestia := fun _ _ _ => Except.ok [7]
  celestiaNamespace := 5
  proofRead := fun _ bs => !bs.isEmpty
  witnessNew := fun _ => true
  witnessRead := fun _ bs => !bs.isEmpty
  vkRead := fun _ bs => !bs.isEmpty
  plonkVerify := fun _ proofBytes _ _ => proofBytes == [1]
  maxProofSize := 4
  maxElfBufferSize := 4
  sp1Verify := fun _ _ _ _ => true

/-- A Calldata BN254 entry whose proof the concrete environment accepts. -/
def pvValid : ProofVerificationData :=
  { provingSystemId := GnarkPlonkBn254
    daPayload := { solution := Calldata, proofAssociatedData := [1], index := 0 }
    pubInput := [2]
    verificationKey := [3] }

/-- A Calldata BN254 entry whose proof the concrete environment rejects. -/
def pvInvalid : ProofVerificationData :=
  { provingSystemId := GnarkPlonkBn254
    daPayload := { solution := Calldata, proofAssociatedData := [2], index := 0 }
    pubInput := [2]
    verificationKey := [3] }

/-- An EigenDA entry, whose fetch fails in the concrete environment. -/
def pvEigen : ProofVerificationData :=
  { provingSystemId := GnarkPlonkBn254
    daPayload := { solution := EigenDA, proofAssociatedData := [4], index := 1 }
    pubInput := [2]
    verificationKey := [3] }

/-- An SP1 entry whose proof bytes exceed the concrete MaxProofSize. -/
def pvSp1Oversized : ProofVerificationData :=
  { provingSystemId := SP1
    daPayload :=
      { solution := Calldata, proofAssociatedData := [1, 2, 3, 4, 5], index := 0 }
    pubInput := [9]
    verificationKey := [] }

/-- An entry whose DA solution tag 7 is none of the three known tags. -/
def pvUnknownSolution : ProofVerificationData :=
  { provingSystemId := GnarkPlonkBn254
    daPayload := { solution := 7, proofAssociatedData := [8], index := 0 }
    pubInput := [2]
    verificationKey := [3] }

/-- A concrete two-proof task with mixed verdicts. -/
def logMixed : NewTaskCreatedLog :=
  { taskIndex := 9
    batchProofVerificationTask :=
      { taskCreatedBlock := 100
        proofVerificationsData := [pvValid, pvInvalid] } }

/-- The response the concrete environment produces for logMixed. -/
def respMixed : TaskResponse := { taskIndex := 9, proofResults := [true, false] }

/-- A concrete task whose second proof needs the failing EigenDA fetch. -/
def logAbandoned : NewTaskCreatedLog :=
  { taskIndex := 10
    batchProofVerificationTask :=
      { taskCreatedBlock := 101
        proofVerificationsData := [pvValid, pvEigen] } }

/-- A concrete signing environment whose primitives all succeed. -/
def signEnvW : SignEnv where
  abiEncode := fun taskResponse =>
    Except.ok (taskResponse.taskIndex ::
      taskResponse.proofResults.map (fun b => if b then 1 else 0))
  keccak256 := fun bs => List.replicate 32 (bs.length % 256)
  signMessage := fun keyPair msg => { bytes := keyPair.privKey :: msg }
  keyPair := { privKey := 11 }
  operatorId := 3

/-- A concrete signing environment whose ABI encoding always fails. -/
def signEnvFailing : SignEnv where
  abiEncode := fun _ => Except.error "abi encoding failed"
  keccak256 := fun bs => List.replicate 32 (bs.length % 256)
  signMessage := fun keyPair msg => { bytes := keyPair.privKey :: msg }
  keyPair := { privKey := 11 }
  operatorId := 3

/-- C1: whenever ProcessNewTaskCreatedLog returns a response R for a task
with n proof verifications, R carries exactly n booleans, echoes the task
index, and the boolean at every index i is the verdict computed for the
i-th input proof, order preserved. -/
theorem c1_process_response_shape (env : Env) (log : NewTaskCreatedLog)
    (R : TaskResponse)
    (h : ProcessNewTaskCreatedLog env log = some R) :
    R.proofResults.length =
        log.batchProofVerificationTask.proofVerificationsData.length ∧
      R.taskIndex = log.taskIndex ∧
      ∀ (i : Nat) (verificationData : ProofVerificationData),
        log.batchProofVerificationTask.proofVerificationsData[i]? =
            some verificationData →
          R.proofResults[i]? = processElement env verificationData := by
  unfold ProcessNewTaskCreatedLog at h
  cases hps : processProofs env
      log.batchProofVerificationTask.proofVerificationsData with
  | none => rw [hps] at h; exact absurd h (by simp)
  | some rs =>
    rw [hps] at h
    simp only [Option.some.injEq] at h
    subst h
    exact ⟨processProofs_length env _ rs hps, rfl,
      fun i verificationData hget =>
        processProofs_get env _ rs hps i verificationData hget⟩

/-- Witness for C1 at a concrete two-proof task with mixed verdicts. -/
theorem c1_process_response_shape_witness :
    respMixed.proofResults.length =
        logMixed.batchProofVerificationTask.proofVerificationsData.length ∧
      respMixed.taskIndex = logMixed.taskIndex ∧
      ∀ (i : Nat) (verificationData : ProofVerificationData),
        logMixed.batchProofVerificationTask.proofVerificationsData[i]? =
            some verificationData →
          respMixed.proofResults[i]? = processElement envW verificationData :=
  c1_process_response_shape envW logMixed respMixed (by decide)

/-- C2: a proof that fails to verify contributes false at its index while the
loop continues (a recognized proving system always yields a recorded
verdict), whereas a failing DA fetch or an unrecognized provingSystemId
abandons the whole task: ProcessNewTaskCreatedLog returns none and no
partial result vector is produced. -/
theorem c2_failed_verdict_vs_abandon (env : Env) (log : NewTaskCreatedLog) :
    (∀ (verificationData : ProofVerificationData) (proof : List Nat),
        knownProvingSystem verificationData.provingSystemId →
          ∃ b, verifyStep env verificationData proof = some b) ∧
      (∀ verificationData ∈
          log.batchProofVerificationTask.proofVerificationsData,
        ((∃ e, fetchProof env verificationData = Except.error e) ∨
            ¬ knownProvingSystem verificationData.provingSystemId) →
          ProcessNewTaskCreatedLog env log = none) ∧
      (∀ (i : Nat) (verificationData : ProofVerificationData)
          (R : TaskResponse),
        log.batchProofVerificationTask.proofVerificationsData[i]? =
            some verificationData →
          processElement env verificationData = some false →
          ProcessNewTaskCreatedLog env log = some R →
          R.proofResults[i]? = some false) := by
  refine ⟨fun verificationData proof h =>
    verifyStep_known_isSome env verificationData proof h, ?_, ?_⟩
  · intro verificationData hmem hbad
    have hnone : processElement env verificationData = none := by
      unfold processElement
      rcases hbad with ⟨e, herr⟩ | hunknown
      · rw [herr]
      · cases hfetch : fetchProof env verificationData with
        | error e => rfl
        | ok proof =>
          exact verifyStep_unknown_eq_none env verificationData proof hunknown
    unfold ProcessNewTaskCreatedLog
    rw [(processProofs_eq_none env _).mpr ⟨verificationData, hmem, hnone⟩]
  · intro i verificationData R hget hfalse hR
    unfold ProcessNewTaskCreatedLog at hR
    cases hps : processProofs env
        log.batchProofVerificationTask.proofVerificationsData with
    | none => rw [hps] at hR; exact absurd hR (by simp)
    | some rs =>
      rw [hps] at hR
      simp only [Option.some.injEq] at hR
      subst hR
      have hi : rs[i]? = processElement env verificationData :=
        processProofs_get env _ rs hps i verificationData hget
      rw [hfalse] at hi
      exact hi

/-- Witness for C2: the failing EigenDA fetch abandons the concrete task. -/
theorem c2_failed_verdict_vs_abandon_witness :
    ProcessNewTaskCreatedLog envW logAbandoned = none :=
  (c2_failed_verdict_vs_abandon envW logAbandoned).2.1 pvEigen (by decide)
    (Or.inl ⟨"eigen unreachable", rfl⟩)

/-- C3: at a concrete task whose EigenDA fetch fails, processing is abandoned
(nil task response); Start's select body then passes the nil pointer to
SignTaskResponse, whose dereference for ABI encoding panics, so no
SignedTaskResponse is submitted but — against the claim — the task-level
failure terminates the process. -/
theorem c3_start_crashes_on_abandoned_task :
    ProcessNewTaskCreatedLog envW logAbandoned = none ∧
      startHandleNewTask envW signEnvW logAbandoned = StartOutcome.crash :=
  ⟨by decide, by decide⟩

/-- C4: a cancelled caller-supplied context has a ready Done channel, yet the
shutdown arm of Start's select never becomes ready, because the source waits
on context.Background().Done() instead of the supplied context: cancelling
the token supplied to Start does not stop the loop. -/
theorem c4_start_ignores_supplied_cancellation :
    Context.doneReady { cancelled := true } = true ∧
      startShutdownReady { cancelled := true } = false :=
  ⟨rfl, rfl⟩

/-- C5: for an SP1 proof whose proof bytes exceed MaxProofSize or whose ELF
bytes (carried in pubInput) exceed MaxElfBufferSize, the dispatched verdict
is false; the dispatch is a total function, so the operator does not crash. -/
theorem c5_sp1_oversized_inputs_false (env : Env)
    (verificationData : ProofVerificationData) (proof : List Nat)
    (hsp1 : verificationData.provingSystemId = SP1)
    (hover : env.maxProofSize < proof.length ∨
      env.maxElfBufferSize < verificationData.pubInput.length) :
    verifyStep env verificationData proof = some false := by
  unfold verifyStep
  rw [hsp1]
  rw [if_neg (by decide : ¬ SP1 = GnarkPlonkBls12_381),
    if_neg (by decide : ¬ SP1 = GnarkPlonkBn254), if_pos rfl]
  unfold VerifySp1Proof
  rw [if_pos hover]

/-- Witness for C5: a five-byte SP1 proof against a four-byte limit. -/
theorem c5_sp1_oversized_inputs_false_witness :
    verifyStep envW pvSp1Oversized [1, 2, 3, 4, 5] = some false :=
  c5_sp1_oversized_inputs_false envW pvSp1Oversized [1, 2, 3, 4, 5]
    (by decide) (Or.inl (by decide))

/-- C6: at a concrete task that processes to a full response, a failing ABI
encoding makes SignTaskResponse return an error; the source logs it but then
dereferences the nil signature pointer while building the
SignedTaskResponse, so — against the claim — the runtime crashes instead of
skipping submission for that task. -/
theorem c6_start_crashes_on_signing_error :
    ProcessNewTaskCreatedLog envW logMixed = some respMixed ∧
      SignTaskResponse signEnvFailing respMixed =
        Except.error "abi encoding failed" ∧
      startHandleNewTask envW signEnvFailing logMixed = StartOutcome.crash :=
  ⟨by decide, rfl, by decide⟩

/-- C7: a Calldata payload resolves, in every environment (hence with no I/O
and with no possible failure), to exactly its proofAssociatedData bytes. -/
theorem c7_calldata_verbatim (env : Env)
    (verificationData : ProofVerificationData)
    (h : verificationData.daPayload.solution = Calldata) :
    fetchProof env verificationData =
      Except.ok verificationData.daPayload.proofAssociatedData := by
  unfold fetchProof
  rw [if_pos h]

/-- Witness for C7 at the concrete valid Calldata proof. -/
theorem c7_calldata_verbatim_witness :
    fetchProof envW pvValid = Except.ok [1] :=
  c7_calldata_verbatim envW pvValid (by decide)

/-- C8: verifyPlonkProof attempts proof deserialization, public-witness
instantiation and read over the curve's scalar field, and verifying-key read
in that order (its attempted stages always form a prefix of the canonical
stage order), returns false whenever any deserialization stage fails, and on
full deserialization success runs all five stages and returns exactly the
plonk.Verify verdict. -/
theorem c8_verifyPlonkProof_contract (env : Env) (curve : CurveId)
    (proofBytes pubInputBytes verificationKeyBytes : List Nat) :
    (verifyPlonkProofSteps env proofBytes pubInputBytes verificationKeyBytes
        curve =
      plonkStepOrder.take (verifyPlonkProofSteps env proofBytes pubInputBytes
        verificationKeyBytes curve).length) ∧
      ((env.proofRead curve proofBytes = false ∨
          env.witnessNew curve = false ∨
          env.witnessRead curve pubInputBytes = false ∨
          env.vkRead curve verificationKeyBytes = false) →
        verifyPlonkProof env proofBytes pubInputBytes verificationKeyBytes
          curve = false) ∧
      (env.proofRead curve proofBytes = true →
        env.witnessNew curve = true →
        env.witnessRead curve pubInputBytes = true →
        env.vkRead curve verificationKeyBytes = true →
        (verifyPlonkProofSteps env proofBytes pubInputBytes
            verificationKeyBytes curve = plonkStepOrder ∧
          verifyPlonkProof env proofBytes pubInputBytes verificationKeyBytes
              curve =
            env.plonkVerify curve proofBytes pubInputBytes
              verificationKeyBytes)) := by
  refine ⟨?_, ?_, ?_⟩
  · unfold verifyPlonkProofSteps plonkStepOrder
    cases h1 : env.proofRead curve proofBytes <;>
      cases h2 : env.witnessNew curve <;>
        cases h3 : env.witnessRead curve pubInputBytes <;>
          cases h4 : env.vkRead curve verificationKeyBytes <;> rfl
  · intro h
    unfold verifyPlonkProof
    rcases h with h | h | h | h <;> simp [h]
  · intro h1 h2 h3 h4
    unfold verifyPlonkProofSteps verifyPlonkProof plonkStepOrder
    simp [h1, h2, h3, h4]

/-- Witness for C8: with every deserialization succeeding on the concrete
bytes, all five stages run in order and the verdict is the library's. -/
theorem c8_verifyPlonkProof_contract_witness :
    verifyPlonkProofSteps envW [1] [2] [3] CurveId.bn254 = plonkStepOrder ∧
      verifyPlonkProof envW [1] [2] [3] CurveId.bn254 =
        envW.plonkVerify CurveId.bn254 [1] [2] [3] :=
  (c8_verifyPlonkProof_contract envW CurveId.bn254 [1] [2] [3]).2.2
    (by decide) (by decide) (by decide) (by decide)

/-- C9: SignTaskResponse is deterministic — with a fixed response, keypair
and (deterministic) encoding, hashing and BLS primitives, two invocations
agree byte for byte, the value signed is the BLS signature of the 32-byte
Keccak-256 digest of the ABI encoding, and that digest has length 32. -/
theorem c9_sign_deterministic (signEnv : SignEnv) (taskResponse : TaskResponse)
    (encodedResponseBytes : List Nat)
    (henc : signEnv.abiEncode taskResponse = Except.ok encodedResponseBytes) :
    SignTaskResponse signEnv taskResponse =
        SignTaskResponse signEnv taskResponse ∧
      SignTaskResponse signEnv taskResponse =
        Except.ok (signEnv.signMessage signEnv.keyPair
          (taskResponseDigest signEnv encodedResponseBytes)) ∧
      (taskResponseDigest signEnv encodedResponseBytes).length = 32 := by
  refine ⟨rfl, ?_, padTrunc_length 32 _⟩
  unfold SignTaskResponse
  rw [henc]

/-- Witness for C9 at the concrete response and keypair fixture. -/
theorem c9_sign_deterministic_witness :
    SignTaskResponse signEnvW respMixed = SignTaskResponse signEnvW respMixed ∧
      SignTaskResponse signEnvW respMixed =
        Except.ok (signEnvW.signMessage signEnvW.keyPair
          (taskResponseDigest signEnvW [9, 1, 0])) ∧
      (taskResponseDigest signEnvW [9, 1, 0]).length = 32 :=
  c9_sign_deterministic signEnvW respMixed [9, 1, 0] rfl

/-- C10: a DA solution tag outside the three known ones leaves the proof
variable nil: the fetch stage succeeds with empty bytes in every environment
(no fetch is performed and the task is not abandoned there), the iteration
equals the dispatch on empty proof bytes, and for a recognized proving
system the verifier's verdict on empty bytes is recorded at that index. -/
theorem c10_unknown_solution_nil_proof (env : Env)
    (verificationData : ProofVerificationData)
    (h1 : verificationData.daPayload.solution ≠ Calldata)
    (h2 : verificationData.daPayload.solution ≠ EigenDA)
    (h3 : verificationData.daPayload.solution ≠ Celestia) :
    fetchProof env verificationData = Except.ok [] ∧
      processElement env verificationData =
        verifyStep env verificationData [] ∧
      (knownProvingSystem verificationData.provingSystemId →
        ∃ b, verifyStep env verificationData [] = some b ∧
          processElement env verificationData = some b) := by
  have hfetch : fetchProof env verificationData = Except.ok [] := by
    unfold fetchProof
    rw [if_neg h1, if_neg h2, if_neg h3]
  have hpe : processElement env verificationData =
      verifyStep env verificationData [] := by
    unfold processElement
    rw [hfetch]
  refine ⟨hfetch, hpe, ?_⟩
  intro hknown
  obtain ⟨b, hb⟩ := verifyStep_known_isSome env verificationData [] hknown
  exact ⟨b, hb, by rw [hpe, hb]⟩

/-- Witness for C10 at a concrete entry carrying solution tag 7. -/
theorem c10_unknown_solution_nil_proof_witness :
    fetchProof envW pvUnknownSolution = Except.ok [] ∧
      processElement envW pvUnknownSolution =
        verifyStep envW pvUnknownSolution [] ∧
      (knownProvingSystem pvUnknownSolution.provingSystemId →
        ∃ b, verifyStep envW pvUnknownSolution [] = some b ∧
          processElement envW pvUnknownSolution = some b) :=
  c10_unknown_solution_nil_proof envW pvUnknownSolution (by decide)
    (by decide) (by decide)

end AlignedOperator
